import Mathlib

/-!
Shallow embedding of the banking agent's data-access layer
(`bank_agent/entities/database.py`) and its tool adapter layer
(`bank_agent/tools/tool.py`), with theorems checking the specification's
claims about them.

The Record Store is modelled as an in-memory structure of row lists; each
SQL statement of the source is translated to the corresponding list
operation, including SQLite's semantics for `LIMIT`/`OFFSET`,
`INSERT OR IGNORE`, foreign-key enforcement and integer column affinity.
Tool-adapter functions additionally return the list of Record Store
calls they issued, so that claims of the form "the store is not touched"
become statable.
-/

/-- A loosely-typed Python value as it appears in the tool parameter bag
and the session-state bag. -/
inductive PyVal where
  | vNone : PyVal
  | vBool : Bool → PyVal
  | vInt : Int → PyVal
  | vStr : String → PyVal
  | vList : List PyVal → PyVal
  | vDict : List (String × PyVal) → PyVal

/-- Python truthiness (`if x:`): `None`, `False`, `0`, empty string and
empty containers are falsy. -/
def PyVal.truthy : PyVal → Bool
  | .vNone => false
  | .vBool b => b
  | .vInt n => n != 0
  | .vStr s => !s.isEmpty
  | .vList xs => !xs.isEmpty
  | .vDict xs => !xs.isEmpty

/-- Python `str()` of a scalar, as used by the source's f-strings.
The source interpolates only scalars (ids and dates) into messages, so the
container cases use a fixed marker. -/
def PyVal.pyStr : PyVal → String
  | .vNone => "None"
  | .vBool b => if b then "True" else "False"
  | .vInt n => toString n
  | .vStr s => s
  | .vList _ => "[...]"
  | .vDict _ => "\x7b...\x7d"

/-- Default whitespace stripped by Python around an integer literal. -/
def isPySpace (c : Char) : Bool :=
  c == ' ' || c == '\t' || c == '\n' || c == '\r' || c == '\x0b' || c == '\x0c'

/-- Integer parse of a string following Python `int(str)`: surrounding
whitespace stripped, optional sign, then a nonempty digit run.  (Digit
grouping with underscores, which no caller here produces, is rejected.) -/
def pyIntOfString? (s : String) : Option Int :=
  let cs := ((s.toList.dropWhile isPySpace).reverse.dropWhile isPySpace).reverse
  let signed : Bool × List Char :=
    match cs with
    | '-' :: rest => (true, rest)
    | '+' :: rest => (false, rest)
    | rest => (false, rest)
  if signed.2.isEmpty ∨ ¬ (signed.2.all Char.isDigit) then none
  else
    let mag : Int :=
      Int.ofNat (signed.2.foldl (fun acc c => acc * 10 + (c.toNat - 48)) 0)
    some (if signed.1 then -mag else mag)

/-- A Python runtime exception, distinguishing `ValueError` (caught by the
pagination parsers) from any other exception (reaches the outer handler). -/
inductive PyExc where
  | valueError : String → PyExc
  | otherError : String → PyExc

/-- The message text of an exception, as `str(e)` yields it. -/
def PyExc.msg : PyExc → String
  | .valueError m => m
  | .otherError m => m

/-- Python `int(x)` on a parameter-bag value: ints pass through, bools are
0/1, strings are parsed (`ValueError` on failure), other types raise
`TypeError` (modelled as `otherError`, since the source catches only
`ValueError` at the parse sites). -/
def pyInt : PyVal → Except PyExc Int
  | .vInt n => .ok n
  | .vBool b => .ok (if b then 1 else 0)
  | .vStr s =>
    match pyIntOfString? s with
    | some n => .ok n
    | none => .error (.valueError ("invalid literal for int() with base 10: " ++ s))
  | v => .error (.otherError ("int() argument must be a string, a bytes-like object or a real number, not " ++ v.pyStr))

-- ===== Record rows (columns as in the schema of database.py) =====

/-- A row of the `customers` table. -/
structure Customer where
  id : Int
  name : String
  email : String
  phone : String
  address : String
  dob : String
  created_at : String
  updated_at : String
deriving DecidableEq

/-- A row of the `accounts` table.  The monetary balance is modelled in
fixed-point cents, matching `DECIMAL(15, 2)`. -/
structure Account where
  id : Int
  customer_id : Int
  account_number : String
  balance : Int
  account_type : String
  account_status : String
  created_at : String
  updated_at : String
deriving DecidableEq

/-- A row of the `transactions` table. -/
structure TransactionRow where
  id : Int
  account_id : Int
  amount : Int
  type : String
  description : Option String
  transaction_date : String
  created_at : String
deriving DecidableEq

/-- A row of the `complaint_types` table. -/
structure ComplaintType where
  id : Int
  name : String
  description : String
  is_active : Bool
deriving DecidableEq

/-- A row of the `complaints` table. -/
structure ComplaintRow where
  id : Int
  customer_id : Int
  type_id : Int
  title : String
  description : String
  status : String
  priority : String
  resolution_notes : Option String
  created_at : String
  updated_at : String
  resolved_at : Option String
deriving DecidableEq

/-- A complaint row joined with its complaint type's name, as produced by
the `JOIN complaint_types` queries. -/
structure JoinedComplaint where
  row : ComplaintRow
  complaint_type_name : String

/-- The Record Store: the persisted tables plus the set of schema objects
already created (for `CREATE ... IF NOT EXISTS`) and the process clock —
the full timestamp (`now`, used for `CURRENT_TIMESTAMP` defaults and
`datetime.now()`) and its calendar-date part (`today`, used for
`datetime.now().date().isoformat()`). -/
structure Database where
  schema_objects : List String
  customers : List Customer
  accounts : List Account
  transactions : List TransactionRow
  complaint_types : List ComplaintType
  complaints : List ComplaintRow
  now : String
  today : String

-- ===== Schema initialization (Database._initialize_database) =====

/-- The six default complaint types seeded by `_initialize_default_data`. -/
def defaultComplaintTypes : List (Int × String × String) :=
  [ (1, "Account Issue", "Problems related to account access or management")
  , (2, "Transaction Problem", "Issues with transactions or payments")
  , (3, "Card Issue", "Problems with debit/credit cards")
  , (4, "Internet Banking", "Online banking access or functionality issues")
  , (5, "Loan Query", "Questions or issues regarding loans")
  , (6, "Other", "Any other type of complaint") ]

/-- The schema objects created by `_initialize_database`: the five tables
and the five indexes, each via `CREATE ... IF NOT EXISTS`. -/
def schemaObjectNames : List String :=
  [ "customers", "accounts", "transactions", "complaint_types", "complaints"
  , "idx_accounts_customer", "idx_transactions_account", "idx_transactions_date"
  , "idx_complaints_customer", "idx_complaints_status" ]

/-- Model of `CREATE TABLE IF NOT EXISTS` / `CREATE INDEX IF NOT EXISTS`: record the
object if it is not already present, otherwise leave the schema unchanged. -/
def createIfNotExists (objs : List String) (name : String) : List String :=
  if name ∈ objs then objs else objs ++ [name]

/-- Whether inserting the given default row into `complaint_types` would
violate the primary key on `id` or the UNIQUE constraint on `name`. -/
def typeConflict (ts : List ComplaintType) (row : Int × String × String) : Bool :=
  ts.any (fun t => t.id == row.1 || t.name == row.2.1)

/-- Model of `INSERT OR IGNORE INTO complaint_types (id, name, description)`: the row
is dropped when it would violate a uniqueness constraint. -/
def insertOrIgnoreComplaintType (ts : List ComplaintType) (row : Int × String × String) :
    List ComplaintType :=
  if typeConflict ts row then ts
  else ts ++ [{ id := row.1, name := row.2.1, description := row.2.2, is_active := true }]

/-- Model of `Database._initialize_database`: create the schema objects if absent and
seed the default complaint types with `INSERT OR IGNORE`. -/
def Database.initDatabase (db : Database) : Database :=
  { db with
    schema_objects := schemaObjectNames.foldl createIfNotExists db.schema_objects,
    complaint_types := defaultComplaintTypes.foldl insertOrIgnoreComplaintType db.complaint_types }

-- ===== Customer / account / transaction queries =====

/-- Model of `Database.verify_customer`: `SELECT 1 FROM customers WHERE id = ?`. -/
def Database.verify_customer (db : Database) (customer_id : Int) : Bool :=
  db.customers.any (fun c => c.id == customer_id)

/-- Model of `Database.get_customer`: `SELECT * FROM customers WHERE id = ?`. -/
def Database.get_customer (db : Database) (customer_id : Int) : Option Customer :=
  db.customers.find? (fun c => c.id == customer_id)

/-- Model of `Database.get_customer_account`:
`SELECT * FROM accounts WHERE id = ? AND customer_id = ?`. -/
def Database.get_customer_account (db : Database) (customer_id account_id : Int) :
    Option Account :=
  db.accounts.find? (fun a => a.id == account_id && a.customer_id == customer_id)

/-- Model of `Database.get_account_balance`:
`SELECT balance FROM accounts WHERE id = ?`. -/
def Database.get_account_balance (db : Database) (account_id : Int) : Option Int :=
  (db.accounts.find? (fun a => a.id == account_id)).map (fun a => a.balance)

/-- The `ORDER BY transaction_date DESC, created_at DESC` comparator:
`a` may precede `b` when its key is at least as large. -/
def txDescLe (a b : TransactionRow) : Bool :=
  if a.transaction_date == b.transaction_date then decide (b.created_at ≤ a.created_at)
  else decide (b.transaction_date ≤ a.transaction_date)

/-- The full result of `SELECT * FROM transactions WHERE account_id = ?
ORDER BY transaction_date DESC, created_at DESC`, before any LIMIT/OFFSET. -/
def Database.orderedTransactions (db : Database) (account_id : Int) : List TransactionRow :=
  (db.transactions.filter (fun t => t.account_id == account_id)).insertionSort
    (fun a b => txDescLe a b = true)

/-- Model of `Database.get_account_transactions` with `LIMIT ? OFFSET ?` following
SQLite semantics: a negative OFFSET behaves as zero, and a negative LIMIT
means no upper bound on the number of rows. -/
def Database.get_account_transactions (db : Database) (account_id : Int)
    (limit offset : Int) : List TransactionRow :=
  let full := db.orderedTransactions account_id
  let afterOffset := full.drop offset.toNat
  if limit < 0 then afterOffset else afterOffset.take limit.toNat

/-- Model of `Database.get_transactions_by_date_range`:
`WHERE account_id = ? AND transaction_date BETWEEN ? AND ?`, ordered as the
other transaction queries. -/
def Database.get_transactions_by_date_range (db : Database) (account_id : Int)
    (start_date end_date : String) : List TransactionRow :=
  (db.transactions.filter (fun t =>
    t.account_id == account_id &&
    decide (start_date ≤ t.transaction_date) && decide (t.transaction_date ≤ end_date))).insertionSort
    (fun a b => txDescLe a b = true)

-- ===== Complaint queries =====

/-- The comparator for `ORDER BY c.created_at DESC`. -/
def complaintDescLe (a b : ComplaintRow) : Bool :=
  decide (b.created_at ≤ a.created_at)

/-- Join a complaint row against `complaint_types` (inner join, so the row
is dropped when its type id does not resolve). -/
def joinComplaintType (db : Database) (c : ComplaintRow) : Option JoinedComplaint :=
  (db.complaint_types.find? (fun t => t.id == c.type_id)).map
    (fun t => { row := c, complaint_type_name := t.name })

/-- Model of `Database.get_customer_complaints`: the customer-scoped join with
`ORDER BY c.created_at DESC LIMIT ? OFFSET ?` (SQLite LIMIT semantics as
above). -/
def Database.get_customer_complaints (db : Database) (customer_id : Int)
    (limit offset : Int) : List JoinedComplaint :=
  let full := ((db.complaints.filter (fun c => c.customer_id == customer_id)).insertionSort
      (fun a b => complaintDescLe a b = true)).filterMap (joinComplaintType db)
  let afterOffset := full.drop offset.toNat
  if limit < 0 then afterOffset else afterOffset.take limit.toNat

/-- Model of `Database.get_complaint_by_id`: the `customer_id` filter is added only
when the Python value is truthy (`if customer_id:`), so passing `0` skips
the scoping exactly as omitting the argument does. -/
def Database.get_complaint_by_id (db : Database) (complaint_id : Int)
    (customer_id : Option Int) : Option JoinedComplaint :=
  let scopeActive : Bool :=
    match customer_id with
    | some n => n != 0
    | none => false
  let rows := db.complaints.filter (fun c =>
    c.id == complaint_id &&
    (!scopeActive || c.customer_id == customer_id.getD 0))
  (rows.filterMap (joinComplaintType db)).head?

/-- Model of `Database.create_complaint`: `INSERT INTO complaints (...) VALUES
(?, ?, ?, ?, Open, ?)` with foreign keys enforced (`PRAGMA foreign_keys =
ON`); the new row id is the auto-incremented rowid (one more than the
largest existing id), `resolved_at` has no default and stays NULL, and the
timestamp columns take `CURRENT_TIMESTAMP`. -/
def Database.create_complaint (db : Database) (customer_id type_id : Int)
    (title description priority : String) : Except String (Database × Int) :=
  if !(db.customers.any (fun c => c.id == customer_id)) ||
     !(db.complaint_types.any (fun t => t.id == type_id)) then
    .error "FOREIGN KEY constraint failed"
  else
    let newId : Int := (db.complaints.foldl (fun m c => max m c.id) 0) + 1
    let row : ComplaintRow :=
      { id := newId, customer_id := customer_id, type_id := type_id,
        title := title, description := description, status := "Open",
        priority := priority, resolution_notes := none,
        created_at := db.now, updated_at := db.now, resolved_at := none }
    .ok ({ db with complaints := db.complaints ++ [row] }, newId)

-- ===== Tool adapter layer (bank_agent/tools/tool.py) =====

/-- The uniform response envelope: the three base fields of `ToolResponse`
plus the operation-specific fields (typed-optional fields and extras are
modelled uniformly as a keyed payload list). -/
structure ToolResponse where
  success : Bool
  message : Option String
  error : Option String
  extra : List (String × PyVal)

/-- The envelope constructor with the `set_success_based_on_error`
validator applied: whenever `error` is set, `success` is forced to
`false`, regardless of the `success` value the call site passed. -/
def mkToolResponse (success : Bool) (message error : Option String)
    (extra : List (String × PyVal)) : ToolResponse :=
  { success := if error.isSome then false else success,
    message := message, error := error, extra := extra }

/-- The per-call context: the loosely-typed parameter bag and the mutable
per-session state bag. -/
structure ToolContext where
  params : List (String × PyVal)
  state : List (String × PyVal)

/-- Dictionary lookup, `d.get(k)` returning `None` when absent is
`(dictGet? d k).getD .vNone`. -/
def dictGet? (d : List (String × PyVal)) (k : String) : Option PyVal :=
  (d.find? (fun p => p.1 == k)).map (fun p => p.2)

/-- Model of `d.get(k, default)`. -/
def dictGetD (d : List (String × PyVal)) (k : String) (v : PyVal) : PyVal :=
  (dictGet? d k).getD v

/-- Model of `k in d`. -/
def dictHas (d : List (String × PyVal)) (k : String) : Bool :=
  d.any (fun p => p.1 == k)

/-- Model of `d[k] = v`: replace the (unique) binding of the key in place if it
exists, else append it, preserving Python dict insertion order. -/
def dictSet : List (String × PyVal) → String → PyVal → List (String × PyVal)
  | [], k, v => [(k, v)]
  | p :: d, k, v => if p.1 == k then (k, v) :: d else p :: dictSet d k v

/-- One Record Store invocation issued by a tool, with the argument values
the tool passed (raw parameter-bag values where the source passes them
unconverted). -/
inductive DbCall where
  | getCustomer : Int → DbCall
  | verifyCustomer : Int → DbCall
  | getCustomerAccount : Int → PyVal → DbCall
  | getAccountBalance : PyVal → DbCall
  | getAccountTransactions : PyVal → Int → Int → DbCall
  | getTransactionsByDateRange : PyVal → String → String → DbCall
  | getCustomerComplaints : Int → Int → Int → DbCall
  | getComplaintById : PyVal → Option Int → DbCall
  | createComplaint : Int → PyVal → PyVal → PyVal → PyVal → DbCall

/-- Binding a raw parameter value into an INTEGER-affinity column
comparison: ints pass through, bools bind as 0/1, numeric text is
converted by SQLite's affinity rules, anything else matches no row. -/
def pyParamToId : PyVal → Option Int
  | .vInt n => some n
  | .vBool b => some (if b then 1 else 0)
  | .vStr s => pyIntOfString? s
  | _ => none

/-- Model of `db.get_customer_account(customer_id, account_id)` with the raw
parameter-bag `account_id`. -/
def Database.get_customer_account_py (db : Database) (customer_id : Int)
    (account_id : PyVal) : Option Account :=
  match pyParamToId account_id with
  | some a => db.get_customer_account customer_id a
  | none => none

/-- Model of `db.get_account_balance(account_id)` with the raw parameter value. -/
def Database.get_account_balance_py (db : Database) (account_id : PyVal) :
    Option Int :=
  match pyParamToId account_id with
  | some a => db.get_account_balance a
  | none => none

/-- Model of `db.get_account_transactions(account_id, limit, offset)` with the raw
parameter value. -/
def Database.get_account_transactions_py (db : Database) (account_id : PyVal)
    (limit offset : Int) : List TransactionRow :=
  match pyParamToId account_id with
  | some a => db.get_account_transactions a limit offset
  | none => []

/-- Model of `db.get_transactions_by_date_range(account_id, start, end)` with the
raw parameter value. -/
def Database.get_transactions_by_date_range_py (db : Database)
    (account_id : PyVal) (start_date end_date : String) : List TransactionRow :=
  match pyParamToId account_id with
  | some a => db.get_transactions_by_date_range a start_date end_date
  | none => []

/-- Model of `db.get_complaint_by_id(complaint_id, customer_id)` with the raw
parameter value for `complaint_id`. -/
def Database.get_complaint_by_id_py (db : Database) (complaint_id : PyVal)
    (customer_id : Option Int) : Option JoinedComplaint :=
  match pyParamToId complaint_id with
  | some i => db.get_complaint_by_id i customer_id
  | none => none

/-- Binding a raw parameter value into a TEXT-affinity NOT NULL column:
numeric bindings are rendered as text by affinity, `None` or an
unsupported bind type makes the insert fail. -/
def pyParamToText : PyVal → Option String
  | .vStr s => some s
  | .vInt n => some (toString n)
  | .vBool b => some (if b then "1" else "0")
  | _ => none

/-- Model of `db.create_complaint` with the raw parameter-bag values the adapter
passes: a `type_id` that does not convert to an integer resolves no
complaint type (foreign-key failure), and a text field that cannot bind
violates its NOT NULL constraint. -/
def Database.create_complaint_py (db : Database) (customer_id : Int)
    (type_id title description priority : PyVal) :
    Except String (Database × Int) :=
  match pyParamToText title, pyParamToText description, pyParamToText priority with
  | some t, some d, some p =>
    match pyParamToId type_id with
    | some ty => db.create_complaint customer_id ty t d p
    | none => .error "FOREIGN KEY constraint failed"
  | _, _, _ => .error "NOT NULL constraint failed: complaints.title"

/-- The transaction payload dict built by the transaction tools. -/
def txPayload (tx : TransactionRow) : PyVal :=
  .vDict [ ("transaction_id", .vInt tx.id), ("amount", .vInt tx.amount),
           ("type", .vStr tx.type),
           ("description", (tx.description.map PyVal.vStr).getD .vNone),
           ("date", .vStr tx.transaction_date),
           ("created_at", .vStr tx.created_at) ]

/-- The complaint payload dict built by `get_customer_complaint`. -/
def complaintPayload (j : JoinedComplaint) : PyVal :=
  .vDict [ ("complaint_id", .vInt j.row.id), ("title", .vStr j.row.title),
           ("type", .vStr j.complaint_type_name),
           ("status", .vStr j.row.status), ("priority", .vStr j.row.priority),
           ("created_at", .vStr j.row.created_at),
           ("updated_at", .vStr j.row.updated_at),
           ("resolved_at", (j.row.resolved_at.map PyVal.vStr).getD .vNone) ]

-- ===== Tool implementations =====

/-- Model of `verify_customer` (tool): look the customer up, record the verification
outcome in the session-state bag, and return the envelope.  The result is
the envelope, the updated state bag and the Record Store calls issued. -/
def verify_customer (db : Database) (customer_id : Int)
    (tool_context : ToolContext) :
    ToolResponse × List (String × PyVal) × List DbCall :=
  let calls := [DbCall.getCustomer customer_id]
  match db.get_customer customer_id with
  | none =>
    let st := dictSet tool_context.state "customer_verified" (.vBool false)
    (mkToolResponse false none
      (some ("No customer found with ID: " ++ toString customer_id))
      [("status", .vStr "not_found")], st, calls)
  | some customer =>
    let st := dictSet
      (dictSet tool_context.state "customer_verified" (.vBool true))
      "customer_id" (.vInt customer_id)
    (mkToolResponse true (some "Customer verified successfully") none
      [("status", .vStr "verified"),
       ("customer", .vDict
         [("id", .vInt customer.id), ("name", .vStr customer.name),
          ("email", .vStr customer.email), ("phone", .vStr customer.phone)])],
     st, calls)

/-- Model of `get_customer_account_balance` (tool).  When the session flag is not
truthy the fixed re-verification envelope is returned with no store call.
On the found path the source reads `account["status"]`, but the row dict
holds the key `account_status`, so the lookup raises a `KeyError` for the key `status`
and the outer handler converts it into a generic error envelope. -/
def get_customer_account_balance (db : Database) (customer_id : Int)
    (tool_context : ToolContext) : ToolResponse × List DbCall :=
  let account_id := dictGetD tool_context.params "account_id" .vNone
  let is_verified := dictGetD tool_context.state "customer_verified" .vNone
  if !is_verified.truthy then
    (mkToolResponse false none
      (some "Customer not verified ! Please enter your customer id again") [], [])
  else
    let calls := [DbCall.getCustomerAccount customer_id account_id]
    match db.get_customer_account_py customer_id account_id with
    | none =>
      (mkToolResponse false none
        (some ("Account " ++ account_id.pyStr ++
          " not found or doesn\x27t belong to customer " ++ toString customer_id)) [],
       calls)
    | some _ =>
      let calls := calls ++ [DbCall.getAccountBalance account_id]
      (mkToolResponse false none
        (some "Error retrieving account balance: \x27status\x27") [], calls)

/-- Model of `get_customer_account_transactions` (tool): verification gate, account
ownership re-check, pagination parse (`int(...)`, catching only
`ValueError`), then the paged query. -/
def get_customer_account_transactions (db : Database) (customer_id : Int)
    (tool_context : ToolContext) : ToolResponse × List DbCall :=
  let account_id := dictGetD tool_context.params "account_id" .vNone
  let is_verified := dictGetD tool_context.state "customer_verified" .vNone
  if !is_verified.truthy then
    (mkToolResponse false none
      (some "Customer not verified ! Please enter your customer id again") [], [])
  else
    let calls := [DbCall.getCustomerAccount customer_id account_id]
    match db.get_customer_account_py customer_id account_id with
    | none =>
      (mkToolResponse false none
        (some ("Account " ++ account_id.pyStr ++
          " not found or doesn\x27t belong to customer " ++ toString customer_id)) [],
       calls)
    | some account =>
      match pyInt (dictGetD tool_context.params "limit" (.vInt 10)),
            pyInt (dictGetD tool_context.params "offset" (.vInt 0)) with
      | .error (.valueError _), _ =>
        (mkToolResponse false none
          (some "Invalid pagination parameters: limit and offset must be integers") [],
         calls)
      | .error e, _ =>
        (mkToolResponse false none
          (some ("Error retrieving transactions: " ++ e.msg)) [], calls)
      | _, .error (.valueError _) =>
        (mkToolResponse false none
          (some "Invalid pagination parameters: limit and offset must be integers") [],
         calls)
      | _, .error e =>
        (mkToolResponse false none
          (some ("Error retrieving transactions: " ++ e.msg)) [], calls)
      | .ok limit, .ok offset =>
        let calls := calls ++ [DbCall.getAccountTransactions account_id limit offset]
        let transactions := db.get_account_transactions_py account_id limit offset
        (mkToolResponse true
          (some ("Retrieved " ++ toString transactions.length ++
            " transactions for account " ++ account_id.pyStr)) none
          [ ("account_id", account_id),
            ("account_number", .vStr account.account_number),
            ("transactions", .vList (transactions.map txPayload)),
            ("count", .vInt transactions.length),
            ("pagination", .vDict
              [ ("limit", .vInt limit), ("offset", .vInt offset),
                ("total", .vInt transactions.length) ]) ],
         calls)

-- ===== Date validation (datetime.fromisoformat) =====

/-- Gregorian leap-year rule. -/
def isLeapYear (y : Nat) : Bool :=
  (y % 4 == 0 && y % 100 != 0) || y % 400 == 0

/-- Number of days in a month. -/
def daysInMonth (y m : Nat) : Nat :=
  if m == 2 then (if isLeapYear y then 29 else 28)
  else if m == 4 || m == 6 || m == 9 || m == 11 then 30
  else 31

/-- Whether `datetime.fromisoformat` accepts the string as a calendar
date.  The source documents and exchanges dates only in `YYYY-MM-DD` form,
so the model accepts exactly that shape (with real month and day bounds). -/
def isoDateOk (s : String) : Bool :=
  match s.toList with
  | [y1, y2, y3, y4, h1, m1, m2, h2, d1, d2] =>
    if y1.isDigit && y2.isDigit && y3.isDigit && y4.isDigit &&
       h1 == '-' && m1.isDigit && m2.isDigit &&
       h2 == '-' && d1.isDigit && d2.isDigit then
      let y := ((y1.toNat - 48) * 10 + (y2.toNat - 48)) * 100 +
               ((y3.toNat - 48) * 10 + (y4.toNat - 48))
      let m := (m1.toNat - 48) * 10 + (m2.toNat - 48)
      let d := (d1.toNat - 48) * 10 + (d2.toNat - 48)
      1 ≤ m && m ≤ 12 && 1 ≤ d && d ≤ daysInMonth y m
    else false
  | _ => false

/-- Model of `datetime.fromisoformat(x)` on a raw parameter value: a malformed
string raises `ValueError`; a non-string raises `TypeError`, which the
date tools do not catch locally. -/
def pyFromIso : PyVal → Except PyExc Unit
  | .vStr s =>
    if isoDateOk s then .ok ()
    else .error (.valueError ("Invalid isoformat string: \x27" ++ s ++ "\x27"))
  | _ => .error (.otherError "fromisoformat: argument must be str")

/-- Model of `get_customer_account_transactions_by_date` (tool): required-parameter
truthiness check, date-format validation, ownership re-check, then the
date-range query.  Note the source has no verification-flag gate here. -/
def get_customer_account_transactions_by_date (db : Database)
    (customer_id : Int) (tool_context : ToolContext) :
    ToolResponse × List DbCall :=
  let account_id := dictGetD tool_context.params "account_id" .vNone
  let start_date := dictGetD tool_context.params "start_date" .vNone
  let end_date := dictGetD tool_context.params "end_date" (.vStr db.today)
  if !(account_id.truthy && start_date.truthy) then
    (mkToolResponse false none
      (some "account_id and start_date parameters are required") [], [])
  else
    match pyFromIso start_date with
    | .error (.valueError _) =>
      (mkToolResponse false none
        (some "Invalid date format. Dates must be in YYYY-MM-DD format.") [], [])
    | .error e =>
      (mkToolResponse false none
        (some ("Error retrieving transactions by date: " ++ e.msg)) [], [])
    | .ok _ =>
      match pyFromIso end_date with
      | .error (.valueError _) =>
        (mkToolResponse false none
          (some "Invalid date format. Dates must be in YYYY-MM-DD format.") [], [])
      | .error e =>
        (mkToolResponse false none
          (some ("Error retrieving transactions by date: " ++ e.msg)) [], [])
      | .ok _ =>
        let calls := [DbCall.getCustomerAccount customer_id account_id]
        match db.get_customer_account_py customer_id account_id with
        | none =>
          (mkToolResponse false none
            (some ("Account " ++ account_id.pyStr ++
              " not found or doesn\x27t belong to customer " ++ toString customer_id)) [],
           calls)
        | some account =>
          let calls := calls ++
            [DbCall.getTransactionsByDateRange account_id start_date.pyStr end_date.pyStr]
          let transactions :=
            db.get_transactions_by_date_range_py account_id start_date.pyStr end_date.pyStr
          (mkToolResponse true
            (some ("Retrieved " ++ toString transactions.length ++
              " transactions between " ++ start_date.pyStr ++ " and " ++ end_date.pyStr))
            none
            [ ("account_id", account_id),
              ("account_number", .vStr account.account_number),
              ("transactions", .vList (transactions.map txPayload)),
              ("count", .vInt transactions.length),
              ("start_date", start_date), ("end_date", end_date) ],
           calls)

/-- Model of `get_customer_complaint` (tool): existence check through the Record
Store (not the session flag), pagination parse, then the customer-scoped
complaint query. -/
def get_customer_complaint (db : Database) (customer_id : Int)
    (tool_context : ToolContext) : ToolResponse × List DbCall :=
  let calls := [DbCall.verifyCustomer customer_id]
  if !(db.verify_customer customer_id) then
    (mkToolResponse false none
      (some ("Customer not found with ID: " ++ toString customer_id)) [], calls)
  else
    match pyInt (dictGetD tool_context.params "limit" (.vInt 10)),
          pyInt (dictGetD tool_context.params "offset" (.vInt 0)) with
    | .error (.valueError _), _ =>
      (mkToolResponse false none
        (some "Invalid pagination parameters: limit and offset must be integers") [],
       calls)
    | .error e, _ =>
      (mkToolResponse false none
        (some ("Error retrieving complaints: " ++ e.msg)) [], calls)
    | _, .error (.valueError _) =>
      (mkToolResponse false none
        (some "Invalid pagination parameters: limit and offset must be integers") [],
       calls)
    | _, .error e =>
      (mkToolResponse false none
        (some ("Error retrieving complaints: " ++ e.msg)) [], calls)
    | .ok limit, .ok offset =>
      let calls := calls ++ [DbCall.getCustomerComplaints customer_id limit offset]
      let complaints := db.get_customer_complaints customer_id limit offset
      (mkToolResponse true
        (some ("Retrieved " ++ toString complaints.length ++
          " complaints for customer " ++ toString customer_id)) none
        [ ("customer_id", .vInt customer_id),
          ("complaints", .vList (complaints.map complaintPayload)),
          ("pagination", .vDict
            [ ("limit", .vInt limit), ("offset", .vInt offset),
              ("total", .vInt complaints.length) ]) ],
       calls)

/-- Model of `get_customer_complaint_by_id` (tool): truthiness check on the
`complaint_id` parameter, then the lookup scoped by the supplied
customer id (the scoping is skipped inside the store when that id is 0). -/
def get_customer_complaint_by_id (db : Database) (customer_id : Int)
    (tool_context : ToolContext) : ToolResponse × List DbCall :=
  let complaint_id := dictGetD tool_context.params "complaint_id" .vNone
  if !complaint_id.truthy then
    (mkToolResponse false none (some "complaint_id parameter is required") [], [])
  else
    let calls := [DbCall.getComplaintById complaint_id (some customer_id)]
    match db.get_complaint_by_id_py complaint_id (some customer_id) with
    | none =>
      (mkToolResponse false none
        (some ("Complaint " ++ complaint_id.pyStr ++
          " not found or doesn\x27t belong to customer " ++ toString customer_id)) [],
       calls)
    | some j =>
      (mkToolResponse true (some "Complaint retrieved successfully") none
        [ ("customer_id", .vInt customer_id),
          ("complaint_id", .vInt j.row.id), ("title", .vStr j.row.title),
          ("type", .vStr j.complaint_type_name),
          ("status", .vStr j.row.status), ("priority", .vStr j.row.priority),
          ("created_at", .vStr j.row.created_at),
          ("updated_at", .vStr j.row.updated_at),
          ("resolved_at", (j.row.resolved_at.map PyVal.vStr).getD .vNone) ],
       calls)

/-- Model of `create_customer_complaint` (tool): customer existence check through
the Record Store, then the presence check of the required fields (by bag
key, collected into one message), then the insert and the re-fetch of the
created row. -/
def create_customer_complaint (db : Database) (customer_id : Int)
    (tool_context : ToolContext) : ToolResponse × Database × List DbCall :=
  let calls := [DbCall.verifyCustomer customer_id]
  if !(db.verify_customer customer_id) then
    (mkToolResponse false none
      (some ("Customer not found with ID: " ++ toString customer_id)) [], db, calls)
  else
    let required_fields := ["type_id", "title", "description"]
    let missing_fields :=
      required_fields.filter (fun f => !(dictHas tool_context.params f))
    if !missing_fields.isEmpty then
      (mkToolResponse false none
        (some ("Missing required fields: " ++ String.intercalate ", " missing_fields)) [],
       db, calls)
    else
      let type_id := dictGetD tool_context.params "type_id" .vNone
      let title := dictGetD tool_context.params "title" .vNone
      let description := dictGetD tool_context.params "description" .vNone
      let priority := dictGetD tool_context.params "priority" (.vStr "Medium")
      let calls := calls ++
        [DbCall.createComplaint customer_id type_id title description priority]
      match db.create_complaint_py customer_id type_id title description priority with
      | .error e =>
        (mkToolResponse false none
          (some ("Database error creating complaint: " ++ e)) [], db, calls)
      | .ok (db2, complaint_id) =>
        let calls := calls ++ [DbCall.getComplaintById (.vInt complaint_id) none]
        match db2.get_complaint_by_id complaint_id none with
        | none =>
          (mkToolResponse false none
            (some "Complaint was created but could not be retrieved") [], db2, calls)
        | some j =>
          (mkToolResponse true (some "Complaint created successfully") none
            [ ("customer_id", .vInt customer_id),
              ("complaint_id", .vInt j.row.id), ("title", .vStr j.row.title),
              ("type", .vStr j.complaint_type_name),
              ("status", .vStr j.row.status), ("priority", .vStr j.row.priority),
              ("created_at", .vStr j.row.created_at),
              ("updated_at", .vStr j.row.updated_at) ],
           db2, calls)

-- ===== Concrete fixture store used by the witnesses =====

/-- The fixture clock. -/
def sampleNow : String := "2025-06-01 10:00:00"

/-- A small populated store: two customers, one account each, one
transaction, one complaint type and one complaint per customer. -/
def sampleDb : Database :=
  { schema_objects := schemaObjectNames
  , customers :=
    [ { id := 1, name := "Alice Smith", email := "alice@example.com",
        phone := "555-0100", address := "1 Main St", dob := "1990-01-01",
        created_at := sampleNow, updated_at := sampleNow }
    , { id := 2, name := "Bob Jones", email := "bob@example.com",
        phone := "555-0101", address := "2 Oak Ave", dob := "1985-02-02",
        created_at := sampleNow, updated_at := sampleNow } ]
  , accounts :=
    [ { id := 2, customer_id := 1, account_number := "ACC-0002",
        balance := 150000, account_type := "Savings",
        account_status := "Active",
        created_at := sampleNow, updated_at := sampleNow }
    , { id := 3, customer_id := 2, account_number := "ACC-0003",
        balance := 50000, account_type := "Checking",
        account_status := "Active",
        created_at := sampleNow, updated_at := sampleNow } ]
  , transactions :=
    [ { id := 1, account_id := 2, amount := 5000, type := "Deposit",
        description := some "salary", transaction_date := "2025-05-10",
        created_at := sampleNow } ]
  , complaint_types :=
    [ { id := 1, name := "Account Issue",
        description := "Problems related to account access or management",
        is_active := true } ]
  , complaints :=
    [ { id := 2, customer_id := 1, type_id := 1, title := "Card blocked",
        description := "My card stopped working", status := "Open",
        priority := "Medium", resolution_notes := none,
        created_at := sampleNow, updated_at := sampleNow, resolved_at := none }
    , { id := 5, customer_id := 2, type_id := 1, title := "Late fee",
        description := "I was charged a late fee", status := "Open",
        priority := "High", resolution_notes := none,
        created_at := sampleNow, updated_at := sampleNow, resolved_at := none } ]
  , now := sampleNow
  , today := "2025-06-01" }

-- ===== Helper lemmas =====

/-- Setting a key in a state bag makes it readable back. -/
theorem dictGet?_dictSet (d : List (String × PyVal)) (k : String) (v : PyVal) :
    dictGet? (dictSet d k v) k = some v := by
  induction d with
  | nil => simp [dictSet, dictGet?]
  | cons p d ih =>
    by_cases h : p.1 == k
    · simp [dictSet, h, dictGet?]
    · simp only [dictSet, h, if_false, Bool.false_eq_true]
      simpa [dictGet?, List.find?_cons, h] using ih

-- ===== C3 =====

/-- C3: every envelope built by the `ToolResponse` constructor with a
non-null `error` field has `success = false`, whatever `success` value the
call site passed — the constructor's validator enforces it. -/
theorem c3_envelope_invariant (success : Bool) (message error : Option String)
    (extra : List (String × PyVal)) (h : error ≠ none) :
    (mkToolResponse success message error extra).success = false := by
  cases error with
  | none => exact absurd rfl h
  | some e => rfl

/-- Witness for C3 at a concrete call: `success = true` passed together
with a set error comes out with `success = false`. -/
theorem c3_envelope_invariant_witness :
    (some "boom" : Option String) ≠ none ∧
    (mkToolResponse true none (some "boom") []).success = false :=
  ⟨by decide, c3_envelope_invariant true none (some "boom") [] (by decide)⟩

-- ===== C2 =====

/-- C2: `get_customer_account(C, A)` returns `none` both when no account
has id `A` and when the (unique) account with id `A` belongs to a customer
other than `C` — the two cases produce the identical absent result. -/
theorem c2_ownership_opacity (db : Database) (C A : Int)
    (h : (∀ a ∈ db.accounts, a.id ≠ A) ∨
      (db.accounts.Pairwise (fun a b => a.id ≠ b.id) ∧
       ∃ a ∈ db.accounts, a.id = A ∧ a.customer_id ≠ C)) :
    db.get_customer_account C A = none := by
  unfold Database.get_customer_account
  rw [List.find?_eq_none]
  intro a ha
  simp only [Bool.and_eq_true, beq_iff_eq, not_and]
  intro hidA hcust
  cases h with
  | inl hnone => exact hnone a ha hidA
  | inr hsome =>
    obtain ⟨hpw, w, hw, hwid, hwcust⟩ := hsome
    by_cases haw : a = w
    · exact hwcust (haw ▸ hcust)
    · exact (List.Pairwise.forall (fun x y hxy => (Ne.symm hxy)) hpw ha hw haw)
        (hidA.trans hwid.symm)

/-- Witness for C2: in the fixture store, account 99 does not exist and
account 3 exists but belongs to customer 2, and both lookups on behalf of
customer 1 come out absent. -/
theorem c2_ownership_opacity_witness :
    ((∀ a ∈ sampleDb.accounts, a.id ≠ 99) ∨
      (sampleDb.accounts.Pairwise (fun a b => a.id ≠ b.id) ∧
       ∃ a ∈ sampleDb.accounts, a.id = 99 ∧ a.customer_id ≠ 1)) ∧
    ((∀ a ∈ sampleDb.accounts, a.id ≠ 3) ∨
      (sampleDb.accounts.Pairwise (fun a b => a.id ≠ b.id) ∧
       ∃ a ∈ sampleDb.accounts, a.id = 3 ∧ a.customer_id ≠ 1)) ∧
    sampleDb.get_customer_account 1 99 = none ∧
    sampleDb.get_customer_account 1 3 = none :=
  ⟨Or.inl (by decide),
   Or.inr (by decide),
   c2_ownership_opacity sampleDb 1 99 (Or.inl (by decide)),
   c2_ownership_opacity sampleDb 1 3 (Or.inr (by decide))⟩

-- ===== C6 =====

/-- C6: when the requested customer id matches no stored customer,
`verify_customer` returns `success = false` and records
`customer_verified = False` (present, and not true) in the session-state
bag. -/
theorem c6_verify_unknown_customer (db : Database) (customer_id : Int)
    (ctx : ToolContext) (h : ∀ c ∈ db.customers, c.id ≠ customer_id) :
    (verify_customer db customer_id ctx).1.success = false ∧
    dictGet? (verify_customer db customer_id ctx).2.1 "customer_verified" =
      some (.vBool false) := by
  have hnone : db.get_customer customer_id = none := by
    unfold Database.get_customer
    rw [List.find?_eq_none]
    intro c hc
    simp only [beq_iff_eq]
    exact h c hc
  unfold verify_customer
  rw [hnone]
  exact ⟨rfl, dictGet?_dictSet _ _ _⟩

/-- Witness for C6: customer 99 is absent from the fixture store. -/
theorem c6_verify_unknown_customer_witness :
    (∀ c ∈ sampleDb.customers, c.id ≠ 99) ∧
    ((verify_customer sampleDb 99 { params := [], state := [] }).1.success = false ∧
     dictGet? (verify_customer sampleDb 99 { params := [], state := [] }).2.1
       "customer_verified" = some (.vBool false)) :=
  ⟨by decide, c6_verify_unknown_customer sampleDb 99 { params := [], state := [] } (by decide)⟩

-- ===== C7: initialization is idempotent =====

/-- Folding `CREATE ... IF NOT EXISTS` preserves existing schema objects. -/
theorem mem_foldl_createIfNotExists_of_mem (names : List String)
    (objs : List String) (n : String) (h : n ∈ objs) :
    n ∈ names.foldl createIfNotExists objs := by
  induction names generalizing objs with
  | nil => simpa using h
  | cons m names ih =>
    apply ih
    unfold createIfNotExists
    by_cases hm : m ∈ objs
    · simpa [hm] using h
    · simp only [hm, if_false]
      exact List.mem_append_left _ h

/-- After the fold, every created name is present. -/
theorem mem_foldl_createIfNotExists (names : List String) (n : String)
    (h : n ∈ names) (objs : List String) :
    n ∈ names.foldl createIfNotExists objs := by
  induction names generalizing objs with
  | nil => cases h
  | cons m names ih =>
    rcases List.mem_cons.mp h with rfl | h2
    · simp only [List.foldl_cons]
      apply mem_foldl_createIfNotExists_of_mem
      unfold createIfNotExists
      by_cases hm : n ∈ objs
      · simp [hm]
      · simp [hm]
    · simp only [List.foldl_cons]
      exact ih h2 _

/-- When every name is already present, the creation fold is the identity. -/
theorem foldl_createIfNotExists_eq_self (names : List String)
    (objs : List String) (h : ∀ n ∈ names, n ∈ objs) :
    names.foldl createIfNotExists objs = objs := by
  induction names with
  | nil => rfl
  | cons m names ih =>
    simp only [List.foldl_cons]
    rw [show createIfNotExists objs m = objs by
      simp [createIfNotExists, h m (List.mem_cons_self m names)]]
    exact ih (fun n hn => h n (List.mem_cons_of_mem _ hn))

/-- A uniqueness conflict persists through further ignored inserts. -/
theorem typeConflict_insertOrIgnore_mono (ts : List ComplaintType)
    (r r2 : Int × String × String) (h : typeConflict ts r = true) :
    typeConflict (insertOrIgnoreComplaintType ts r2) r = true := by
  unfold insertOrIgnoreComplaintType
  by_cases h2 : typeConflict ts r2
  · rw [if_pos h2]; exact h
  · rw [if_neg h2]
    unfold typeConflict at h ⊢
    rw [List.any_append]
    simp [h]

/-- After inserting-or-ignoring a row, that row conflicts with the table. -/
theorem typeConflict_insertOrIgnore_self (ts : List ComplaintType)
    (r : Int × String × String) :
    typeConflict (insertOrIgnoreComplaintType ts r) r = true := by
  unfold insertOrIgnoreComplaintType
  by_cases h : typeConflict ts r
  · rw [if_pos h]; exact h
  · rw [if_neg h]
    unfold typeConflict
    rw [List.any_append]
    simp

/-- A conflict persists through a whole seeding fold. -/
theorem typeConflict_foldl_mono (rows : List (Int × String × String))
    (ts : List ComplaintType) (r : Int × String × String)
    (h : typeConflict ts r = true) :
    typeConflict (rows.foldl insertOrIgnoreComplaintType ts) r = true := by
  induction rows generalizing ts with
  | nil => simpa using h
  | cons x rows ih => exact ih _ (typeConflict_insertOrIgnore_mono _ _ _ h)

/-- After the seeding fold, every seeded row conflicts with the table. -/
theorem typeConflict_foldl_of_mem (rows : List (Int × String × String))
    (ts : List ComplaintType) (r : Int × String × String) (h : r ∈ rows) :
    typeConflict (rows.foldl insertOrIgnoreComplaintType ts) r = true := by
  induction rows generalizing ts with
  | nil => cases h
  | cons x rows ih =>
    simp only [List.foldl_cons]
    rcases List.mem_cons.mp h with rfl | h2
    · exact typeConflict_foldl_mono rows _ r (typeConflict_insertOrIgnore_self ts r)
    · exact ih _ h2

/-- When every seeded row already conflicts, the seeding fold is the
identity. -/
theorem foldl_insertOrIgnore_eq_self (rows : List (Int × String × String))
    (ts : List ComplaintType) (h : ∀ r ∈ rows, typeConflict ts r = true) :
    rows.foldl insertOrIgnoreComplaintType ts = ts := by
  induction rows with
  | nil => rfl
  | cons x rows ih =>
    simp only [List.foldl_cons]
    rw [show insertOrIgnoreComplaintType ts x = ts by
      simp [insertOrIgnoreComplaintType, h x (List.mem_cons_self x rows)]]
    exact ih (fun r hr => h r (List.mem_cons_of_mem _ hr))

/-- C7: running the schema initialization a second time changes nothing —
the schema objects and the seeded complaint-type rows come out the same,
with no duplicates and no error. -/
theorem c7_init_idempotent (db : Database) :
    db.initDatabase.initDatabase = db.initDatabase := by
  have hs : schemaObjectNames.foldl createIfNotExists
      (schemaObjectNames.foldl createIfNotExists db.schema_objects) =
      schemaObjectNames.foldl createIfNotExists db.schema_objects :=
    foldl_createIfNotExists_eq_self _ _
      (fun n hn => mem_foldl_createIfNotExists _ n hn _)
  have hc : defaultComplaintTypes.foldl insertOrIgnoreComplaintType
      (defaultComplaintTypes.foldl insertOrIgnoreComplaintType db.complaint_types) =
      defaultComplaintTypes.foldl insertOrIgnoreComplaintType db.complaint_types :=
    foldl_insertOrIgnore_eq_self _ _
      (fun r hr => typeConflict_foldl_of_mem _ _ r hr)
  simp [Database.initDatabase, hs, hc]

-- ===== C10: falsy customer_id skips the ownership scope =====

/-- With pairwise-distinct ids, filtering on one row's id keeps exactly
that row. -/
theorem filter_id_eq_singleton (l : List ComplaintRow) (c : ComplaintRow)
    (hmem : c ∈ l) (hpw : l.Pairwise (fun a b => a.id ≠ b.id)) :
    l.filter (fun x => x.id == c.id) = [c] := by
  induction l with
  | nil => cases hmem
  | cons a l ih =>
    rw [List.pairwise_cons] at hpw
    rcases List.mem_cons.mp hmem with rfl | h2
    · rw [List.filter_cons_of_pos (by simp)]
      have : l.filter (fun x => x.id == c.id) = [] := by
        rw [List.filter_eq_nil_iff]
        intro x hx
        simp only [beq_iff_eq]
        exact fun he => (hpw.1 x hx) he.symm
      rw [this]
    · have hne : (a.id == c.id) = false := by
        simp only [beq_eq_false_iff_ne, ne_eq]
        exact hpw.1 c h2
      rw [List.filter_cons_of_neg (by simp [hne])]
      exact ih h2 hpw.2

/-- A `find?` succeeds whenever `any` holds. -/
theorem find?_isSome_of_any {α : Type} (l : List α) (p : α → Bool)
    (h : l.any p = true) : (l.find? p).isSome = true := by
  induction l with
  | nil => simp at h
  | cons a l ih =>
    by_cases ha : p a
    · simp [List.find?, ha]
    · simp only [List.any_cons, ha, Bool.false_or] at h
      simp only [List.find?, ha]
      exact ih h

/-- The unscoped complaint lookup finds a stored row (with distinct ids
and a resolvable type). -/
theorem get_complaint_by_id_unscoped (db : Database) (c : ComplaintRow)
    (hmem : c ∈ db.complaints)
    (hpw : db.complaints.Pairwise (fun a b => a.id ≠ b.id))
    (htype : (db.complaint_types.find? (fun t => t.id == c.type_id)).isSome = true) :
    ∃ j, db.get_complaint_by_id c.id none = some j ∧ j.row = c := by
  obtain ⟨t, ht⟩ := Option.isSome_iff_exists.mp htype
  refine ⟨⟨c, t.name⟩, ?_, rfl⟩
  unfold Database.get_complaint_by_id
  have hfe : db.complaints.filter
      (fun x => x.id == c.id && (!(false : Bool) || x.customer_id == (none : Option Int).getD 0)) =
      db.complaints.filter (fun x => x.id == c.id) := by
    apply List.filter_congr
    intro x _
    simp
  simp only [hfe, filter_id_eq_singleton db.complaints c hmem hpw]
  simp [joinComplaintType, ht]

/-- C10: a falsy (zero) `customer_id` makes `get_complaint_by_id` skip the
customer scope exactly as if the argument had been omitted, it then
returns any stored complaint regardless of its owner, and the adapter's
`get_customer_complaint_by_id` therefore performs no ownership check for
the caller with customer id 0. -/
theorem c10_zero_customer_id_unscoped (db : Database) (c : ComplaintRow)
    (hmem : c ∈ db.complaints)
    (hpw : db.complaints.Pairwise (fun a b => a.id ≠ b.id))
    (hid : c.id ≠ 0) (_hcust : c.customer_id ≠ 0)
    (htype : (db.complaint_types.find? (fun t => t.id == c.type_id)).isSome = true) :
    (∀ (db2 : Database) (i : Int),
      db2.get_complaint_by_id i (some 0) = db2.get_complaint_by_id i none) ∧
    (∃ j, db.get_complaint_by_id c.id (some 0) = some j ∧ j.row = c) ∧
    (get_customer_complaint_by_id db 0
      { params := [("complaint_id", .vInt c.id)], state := [] }).1.success = true := by
  have hzero : ∀ (db2 : Database) (i : Int),
      db2.get_complaint_by_id i (some 0) = db2.get_complaint_by_id i none :=
    fun db2 i => rfl
  obtain ⟨j, hj, hjrow⟩ := get_complaint_by_id_unscoped db c hmem hpw htype
  have hsome : db.get_complaint_by_id c.id (some 0) = some j := by
    rw [hzero]; exact hj
  refine ⟨hzero, ⟨j, hsome, hjrow⟩, ?_⟩
  unfold get_customer_complaint_by_id
  have hparam : dictGetD [("complaint_id", PyVal.vInt c.id)] "complaint_id" .vNone =
      .vInt c.id := rfl
  have htruthy : (PyVal.vInt c.id).truthy = true := by
    simp [PyVal.truthy, hid]
  simp only [hparam, htruthy, Bool.not_true, Bool.false_eq_true, if_false]
  have hpy : db.get_complaint_by_id_py (.vInt c.id) (some 0) = some j := by
    unfold Database.get_complaint_by_id_py pyParamToId
    exact hsome
  simp [hpy, mkToolResponse]

/-- Witness for C10: complaint 5 of the fixture store belongs to customer
2, yet a caller with customer id 0 retrieves it. -/
theorem c10_zero_customer_id_unscoped_witness :
    ((⟨5, 2, 1, "Late fee", "I was charged a late fee", "Open", "High",
        none, sampleNow, sampleNow, none⟩ : ComplaintRow) ∈ sampleDb.complaints ∧
     sampleDb.complaints.Pairwise (fun a b => a.id ≠ b.id) ∧
     (5 : Int) ≠ 0 ∧ (2 : Int) ≠ 0) ∧
    ((∀ (db2 : Database) (i : Int),
        db2.get_complaint_by_id i (some 0) = db2.get_complaint_by_id i none) ∧
     (∃ j, sampleDb.get_complaint_by_id 5 (some 0) = some j ∧
        j.row = ⟨5, 2, 1, "Late fee", "I was charged a late fee", "Open", "High",
          none, sampleNow, sampleNow, none⟩) ∧
     (get_customer_complaint_by_id sampleDb 0
        { params := [("complaint_id", .vInt 5)], state := [] }).1.success = true) :=
  ⟨⟨by decide, by decide, by decide, by decide⟩,
   c10_zero_customer_id_unscoped sampleDb
     ⟨5, 2, 1, "Late fee", "I was charged a late fee", "Open", "High",
       none, sampleNow, sampleNow, none⟩
     (by decide) (by decide) (by decide) (by decide) (by decide)⟩

-- ===== C4: complaint creation round trip =====

/-- The running maximum of a fold over complaint ids never goes below its
start. -/
theorem foldl_max_le_init (l : List ComplaintRow) (a : Int) :
    a ≤ l.foldl (fun m c => max m c.id) a := by
  induction l generalizing a with
  | nil => exact le_refl a
  | cons x l ih => exact le_trans (le_max_left a x.id) (ih (max a x.id))

/-- Every stored complaint id is bounded by the fold maximum. -/
theorem mem_le_foldl_max (l : List ComplaintRow) (a : Int) (x : ComplaintRow)
    (hx : x ∈ l) : x.id ≤ l.foldl (fun m c => max m c.id) a := by
  induction l generalizing a with
  | nil => cases hx
  | cons y l ih =>
    rcases List.mem_cons.mp hx with rfl | h2
    · exact le_trans (le_max_right a x.id) (foldl_max_le_init l (max a x.id))
    · exact ih (max a y.id) h2

/-- C4: in a store containing customer 1 and complaint type 1, creating a
complaint with title `T`, description `D` and priority `High` succeeds,
and the subsequent lookup by the returned id yields a complaint whose
status is `Open`, title `T`, priority `High`, and whose `resolved_at` is
absent. -/
theorem c4_complaint_round_trip (db : Database)
    (hcust : db.customers.any (fun c => c.id == 1) = true)
    (htype : db.complaint_types.any (fun t => t.id == 1) = true) :
    ∃ db2 newId, db.create_complaint 1 1 "T" "D" "High" = .ok (db2, newId) ∧
      ∃ j, db2.get_complaint_by_id newId none = some j ∧
        j.row.status = "Open" ∧ j.row.title = "T" ∧
        j.row.priority = "High" ∧ j.row.resolved_at = none := by
  have hcond : (!(db.customers.any (fun c => c.id == 1)) ||
      !(db.complaint_types.any (fun t => t.id == 1))) = false := by
    rw [hcust, htype]; rfl
  set newId : Int := (db.complaints.foldl (fun m c => max m c.id) 0) + 1 with hnewId
  set row : ComplaintRow :=
    { id := newId, customer_id := 1, type_id := 1, title := "T",
      description := "D", status := "Open", priority := "High",
      resolution_notes := none, created_at := db.now, updated_at := db.now,
      resolved_at := none } with hrow
  set db2 : Database := { db with complaints := db.complaints ++ [row] } with hdb2
  have hcreate : db.create_complaint 1 1 "T" "D" "High" = .ok (db2, newId) := by
    unfold Database.create_complaint
    rw [hcond, if_neg (by simp)]
  refine ⟨db2, newId, hcreate, ?_⟩
  obtain ⟨t, ht⟩ := Option.isSome_iff_exists.mp
    (find?_isSome_of_any db.complaint_types (fun t => t.id == 1) htype)
  refine ⟨⟨row, t.name⟩, ?_, rfl, rfl, rfl, rfl⟩
  unfold Database.get_complaint_by_id
  have hbound : ∀ x ∈ db.complaints, (x.id == newId) = false := by
    intro x hx
    have hlt : x.id < newId := by
      rw [hnewId]
      exact lt_of_le_of_lt (mem_le_foldl_max db.complaints 0 x hx) (lt_add_one _)
    simp [beq_eq_false_iff_ne]
    exact ne_of_lt hlt
  have hfe : db2.complaints.filter
      (fun x => x.id == newId && (!(false : Bool) || x.customer_id == (none : Option Int).getD 0)) =
      db2.complaints.filter (fun x => x.id == newId) := by
    apply List.filter_congr
    intro x _
    simp
  have hfilter : db2.complaints.filter (fun x => x.id == newId) = [row] := by
    rw [hdb2]
    simp only [List.filter_append]
    rw [List.filter_eq_nil_iff.mpr (by intro x hx; simp [hbound x hx])]
    simp [List.filter]
  simp only [hfe, hfilter]
  simp only [hdb2]
  simp [joinComplaintType, hrow, ht]

/-- Witness for C4 on the fixture store. -/
theorem c4_complaint_round_trip_witness :
    (sampleDb.customers.any (fun c => c.id == 1) = true ∧
     sampleDb.complaint_types.any (fun t => t.id == 1) = true) ∧
    (∃ db2 newId, sampleDb.create_complaint 1 1 "T" "D" "High" = .ok (db2, newId) ∧
      ∃ j, db2.get_complaint_by_id newId none = some j ∧
        j.row.status = "Open" ∧ j.row.title = "T" ∧
        j.row.priority = "High" ∧ j.row.resolved_at = none) :=
  ⟨⟨by decide, by decide⟩, c4_complaint_round_trip sampleDb (by decide) (by decide)⟩

-- ===== C5: transaction pagination =====

/-- C5 (amended): for nonnegative `limit` and `offset`, the paged
transaction query returns at most `limit` rows, and row `i` of the page is
exactly row `offset + i` of the full date-descending sequence (with rows
past the limit absent). -/
theorem c5_pagination_amended (db : Database) (A L O : Int)
    (hL : 0 ≤ L) (_hO : 0 ≤ O) :
    (db.get_account_transactions A L O).length ≤ L.toNat ∧
    ∀ i : Nat, (db.get_account_transactions A L O)[i]? =
      if i < L.toNat then (db.orderedTransactions A)[O.toNat + i]? else none := by
  have hneg : ¬ (L < 0) := not_lt.mpr hL
  have hdef : db.get_account_transactions A L O =
      ((db.orderedTransactions A).drop O.toNat).take L.toNat := by
    unfold Database.get_account_transactions
    rw [if_neg hneg]
  constructor
  · rw [hdef, List.length_take]
    exact min_le_left _ _
  · intro i
    by_cases hi : i < L.toNat
    · rw [if_pos hi, hdef, List.getElem?_take_of_lt hi, List.getElem?_drop]
    · rw [if_neg hi]
      apply List.getElem?_len_le
      calc (db.get_account_transactions A L O).length
          ≤ L.toNat := by rw [hdef, List.length_take]; exact min_le_left _ _
        _ ≤ i := Nat.le_of_not_lt hi

/-- Witness for C5 (amended) on the fixture store with `limit = 1`,
`offset = 0` on account 2. -/
theorem c5_pagination_amended_witness :
    ((0 : Int) ≤ 1 ∧ (0 : Int) ≤ 0) ∧
    ((sampleDb.get_account_transactions 2 1 0).length ≤ (1 : Int).toNat ∧
     ∀ i : Nat, (sampleDb.get_account_transactions 2 1 0)[i]? =
       if i < (1 : Int).toNat then (sampleDb.orderedTransactions 2)[(0 : Int).toNat + i]?
       else none) :=
  ⟨⟨by decide, by decide⟩, c5_pagination_amended sampleDb 2 1 0 (by decide) (by decide)⟩

/-- Counterexample to C5 as stated: SQLite treats a negative LIMIT as "no
bound", so with `limit = -1` the query on the fixture store returns one
row, which is not "at most `L` rows". -/
theorem c5_counterexample :
    ¬ (((sampleDb.get_account_transactions 2 (-1) 0).length : Int) ≤ -1) := by
  decide

-- ===== C1: verification gate =====

/-- C1 (amended): `get_customer_account_balance` and
`get_customer_account_transactions` gate on the session's
`customer_verified` flag; whenever that flag is unset or falsy they return
`success = false` with the fixed re-verification message and issue no
Record Store call.  The gate is not enforced by every other operation:
see the counterexample on `get_customer_account_transactions_by_date`. -/
theorem c1_amended_gating (db : Database) (customer_id : Int)
    (ctx : ToolContext)
    (h : (dictGetD ctx.state "customer_verified" .vNone).truthy = false) :
    ((get_customer_account_balance db customer_id ctx).1.success = false ∧
     (get_customer_account_balance db customer_id ctx).1.error =
       some "Customer not verified ! Please enter your customer id again" ∧
     (get_customer_account_balance db customer_id ctx).2 = []) ∧
    ((get_customer_account_transactions db customer_id ctx).1.success = false ∧
     (get_customer_account_transactions db customer_id ctx).1.error =
       some "Customer not verified ! Please enter your customer id again" ∧
     (get_customer_account_transactions db customer_id ctx).2 = []) := by
  constructor
  · simp [get_customer_account_balance, h, mkToolResponse]
  · simp [get_customer_account_transactions, h, mkToolResponse]

/-- Witness for C1 (amended) on a fresh session (empty state bag). -/
theorem c1_amended_gating_witness :
    (dictGetD ([] : List (String × PyVal)) "customer_verified" .vNone).truthy = false ∧
    (((get_customer_account_balance sampleDb 1 { params := [], state := [] }).1.success = false ∧
      (get_customer_account_balance sampleDb 1 { params := [], state := [] }).1.error =
        some "Customer not verified ! Please enter your customer id again" ∧
      (get_customer_account_balance sampleDb 1 { params := [], state := [] }).2 = []) ∧
     ((get_customer_account_transactions sampleDb 1 { params := [], state := [] }).1.success = false ∧
      (get_customer_account_transactions sampleDb 1 { params := [], state := [] }).1.error =
        some "Customer not verified ! Please enter your customer id again" ∧
      (get_customer_account_transactions sampleDb 1 { params := [], state := [] }).2 = [])) :=
  ⟨by decide, c1_amended_gating sampleDb 1 { params := [], state := [] } (by decide)⟩

/-- The fresh-session context used to refute C1 as stated: valid
parameters for the date-range transaction tool, empty state bag. -/
def c1FreshCtx : ToolContext :=
  { params := [("account_id", .vInt 2), ("start_date", .vStr "2025-01-01")],
    state := [] }

/-- Counterexample to C1 as stated:
`get_customer_account_transactions_by_date` never consults the
verification flag — on a fresh session it succeeds and touches the Record
Store. -/
theorem c1_counterexample :
    (get_customer_account_transactions_by_date sampleDb 1 c1FreshCtx).1.success = true ∧
    (get_customer_account_transactions_by_date sampleDb 1 c1FreshCtx).2.length ≠ 0 := by
  decide

-- ===== C8: required-parameter checks =====

/-- C8 (amended): `create_customer_complaint` collects all missing
required fields into one error envelope naming them as a set, and issues
no further Record Store call beyond the customer-existence check that
precedes the parameter validation. -/
theorem c8_missing_fields_amended (db : Database) (customer_id : Int)
    (ctx : ToolContext)
    (hver : db.verify_customer customer_id = true)
    (hmiss : (["type_id", "title", "description"].filter
      (fun f => !(dictHas ctx.params f))).isEmpty = false) :
    (create_customer_complaint db customer_id ctx).1.success = false ∧
    (create_customer_complaint db customer_id ctx).1.error =
      some ("Missing required fields: " ++ String.intercalate ", "
        (["type_id", "title", "description"].filter (fun f => !(dictHas ctx.params f)))) ∧
    (create_customer_complaint db customer_id ctx).2.1 = db ∧
    (create_customer_complaint db customer_id ctx).2.2 =
      [DbCall.verifyCustomer customer_id] := by
  refine ⟨?_, ?_, ?_, ?_⟩ <;>
    simp [create_customer_complaint, hver, hmiss, mkToolResponse]

/-- Witness for C8 (amended): with only `title` supplied, the envelope
names `type_id` and `description` together. -/
theorem c8_missing_fields_amended_witness :
    (sampleDb.verify_customer 1 = true ∧
     (["type_id", "title", "description"].filter
       (fun f => !(dictHas [("title", PyVal.vStr "T")] f))).isEmpty = false) ∧
    ((create_customer_complaint sampleDb 1
        { params := [("title", .vStr "T")], state := [] }).1.success = false ∧
     (create_customer_complaint sampleDb 1
        { params := [("title", .vStr "T")], state := [] }).1.error =
       some ("Missing required fields: " ++ String.intercalate ", "
         (["type_id", "title", "description"].filter
           (fun f => !(dictHas [("title", PyVal.vStr "T")] f)))) ∧
     (create_customer_complaint sampleDb 1
        { params := [("title", .vStr "T")], state := [] }).2.1 = sampleDb ∧
     (create_customer_complaint sampleDb 1
        { params := [("title", .vStr "T")], state := [] }).2.2 =
       [DbCall.verifyCustomer 1]) :=
  ⟨⟨by decide, by decide⟩,
   c8_missing_fields_amended sampleDb 1 { params := [("title", .vStr "T")], state := [] }
     (by decide) (by decide)⟩

/-- A verified session with an empty parameter bag. -/
def c8VerifiedCtx : ToolContext :=
  { params := [], state := [("customer_verified", .vBool true)] }

/-- Counterexample to C8 as stated: `get_customer_account_balance` with
`account_id` absent does not name the missing field — it proceeds to the
Record Store and reports "Account None not found". -/
theorem c8_counterexample :
    (get_customer_account_balance sampleDb 1 c8VerifiedCtx).1.error =
      some "Account None not found or doesn\x27t belong to customer 1" ∧
    (get_customer_account_balance sampleDb 1 c8VerifiedCtx).2.length ≠ 0 := by
  decide

-- ===== C9: pagination parameter validation and defaults =====

/-- C9 (amended): a string `limit` that does not parse as an integer makes
`get_customer_complaint` return the fixed parameter-format error envelope,
and absent `limit`/`offset` default to 10 and 0 in the issued query;
integer-formatted strings, however, are coerced (see the counterexample). -/
theorem c9_pagination_validation_amended (db : Database) (customer_id : Int)
    (s : String) (hver : db.verify_customer customer_id = true)
    (hs : pyIntOfString? s = none) :
    ((get_customer_complaint db customer_id
        { params := [("limit", .vStr s)], state := [] }).1.success = false ∧
     (get_customer_complaint db customer_id
        { params := [("limit", .vStr s)], state := [] }).1.error =
       some "Invalid pagination parameters: limit and offset must be integers") ∧
    (get_customer_complaint db customer_id { params := [], state := [] }).2 =
      [DbCall.verifyCustomer customer_id,
       DbCall.getCustomerComplaints customer_id 10 0] := by
  refine ⟨⟨?_, ?_⟩, ?_⟩ <;>
    simp [get_customer_complaint, hver, dictGetD, dictGet?, pyInt, hs, mkToolResponse]

/-- Witness for C9 (amended) with the unparsable string `abc`. -/
theorem c9_pagination_validation_amended_witness :
    (sampleDb.verify_customer 1 = true ∧ pyIntOfString? "abc" = none) ∧
    (((get_customer_complaint sampleDb 1
        { params := [("limit", .vStr "abc")], state := [] }).1.success = false ∧
      (get_customer_complaint sampleDb 1
        { params := [("limit", .vStr "abc")], state := [] }).1.error =
        some "Invalid pagination parameters: limit and offset must be integers") ∧
     (get_customer_complaint sampleDb 1 { params := [], state := [] }).2 =
       [DbCall.verifyCustomer 1, DbCall.getCustomerComplaints 1 10 0]) :=
  ⟨⟨by decide, by decide⟩,
   c9_pagination_validation_amended sampleDb 1 "abc" (by decide) (by decide)⟩

/-- Counterexample to C9 as stated: the non-integer (string) value `"7"`
is silently coerced by `int(...)` instead of producing a parameter-format
error — the call succeeds. -/
theorem c9_counterexample :
    (get_customer_complaint sampleDb 1
      { params := [("limit", .vStr "7")], state := [] }).1.success = true ∧
    (get_customer_complaint sampleDb 1
      { params := [("limit", .vStr "7")], state := [] }).1.error = none := by
  decide
